import Mathlib

/-!
Verification of the HK-WebD tutorial corpus.

This development embeds the JavaScript/JSX snippets of the repository
(React counter examples, the ErrorBoundary class, the custom hooks, and
the Express authentication snippets of README.md, NODEJS-README.md and
MONGODB-README.md) as Lean definitions, and proves or refutes the
claims made about them by the design specification.

Modelling conventions:
- JavaScript in-memory arrays become Lean lists, mutation becomes
  explicit state passing.
- `bcrypt.hash`/`bcrypt.compare` are modelled by a deterministic tagging
  function and its check, matching the documented bcrypt contract that
  `compare p h` succeeds exactly when `h` was produced by hashing `p`.
- `jwt.sign` is modelled as a deterministic function of the payload and
  secret.
- `Math.random()` is modelled as a stream of rationals, with the range
  assumption `0 ≤ r < 1` stated explicitly where needed.
- MongoDB is modelled as a store keyed by connection URL (every snippet
  uses the single model `User`, hence a single collection per URL).
-/

namespace HKWebD

/-! ## Source files and their import lists

Each JSX module file of the repository, with the list of module
specifiers appearing in its `import` statements, transcribed verbatim
from the source.  The markdown files are documents, not ES modules, and
have no import list.  An ES-module specifier resolves to a file of the
repository exactly when it is a relative path (`./` or `../`); bare
specifiers such as `react` or `recoil` resolve to `node_modules`.
-/

structure SourceFile where
  path : String
  importSpecifiers : List String
deriving Repr, DecidableEq

/-- `src/28_ReactAdvancedPatterns/errorBoundary.jsx`: `import React from "react"`. -/
def errorBoundaryFile : SourceFile :=
  ⟨"28_ReactAdvancedPatterns/errorBoundary.jsx", ["react"]⟩

/-- `src/28_ReactAdvancedPatterns/childrenProps.jsx` has no import statements. -/
def childrenPropsFile : SourceFile :=
  ⟨"28_ReactAdvancedPatterns/childrenProps.jsx", []⟩

/-- `src/24_Context/vite-project/src/App.jsx`: imports from `react` and `./Context.jsx`. -/
def contextAppFile : SourceFile :=
  ⟨"24_Context/vite-project/src/App.jsx", ["react", "./Context.jsx"]⟩

/-- `src/25_Recoil/vite-project/src/App.jsx`: imports from `./store/atom/count.jsx` and `recoil`. -/
def recoilAppFile : SourceFile :=
  ⟨"25_Recoil/vite-project/src/App.jsx", ["./store/atom/count.jsx", "recoil"]⟩

/-- The prop-drilling counter app: `import \x7b useState \x7d from "react"`. -/
def propDrillingAppFile : SourceFile :=
  ⟨"unnamed/part_000", ["react"]⟩

/-- The useFetch demo app: imports from `react` and `./hooks/useFetch`. -/
def useFetchAppFile : SourceFile :=
  ⟨"unnamed/part_001", ["react", "./hooks/useFetch"]⟩

/-- The useDebounce demo app: imports from `react` and `./hooks/useDebounce`. -/
def useDebounceAppFile : SourceFile :=
  ⟨"unnamed/part_002", ["react", "./hooks/useDebounce"]⟩

/-- The four markdown guides carry no import statements of their own. -/
def markdownFiles : List SourceFile :=
  [⟨"README.md", []⟩, ⟨"NODEJS-README.md", []⟩,
   ⟨"MONGODB-README.md", []⟩, ⟨"README_ImportantReactConcepts.md", []⟩]

/-- All eleven source files of the repository. -/
def repoFiles : List SourceFile :=
  [errorBoundaryFile, childrenPropsFile, contextAppFile, recoilAppFile,
   propDrillingAppFile, useFetchAppFile, useDebounceAppFile] ++ markdownFiles

/-- An ES-module import specifier that resolves inside the importing file and its own
directory tree — hence to a file of this repository — exactly when it is
a relative path. -/
def isLocalImport (s : String) : Bool :=
  match s.data with
  | '.' :: '/' :: _ => true
  | '.' :: '.' :: '/' :: _ => true
  | _ => false

/-! ## The counter examples

Three state-management variants of the same counter: prop drilling
(`unnamed/part_000`), Context API (`24_Context/vite-project/src/App.jsx`)
and Recoil (`25_Recoil/vite-project/src/App.jsx`).  Each variant holds a
single integer count, the two buttons replace it by `count - 1` or
`count + 1`, and the reader component renders the current count.
-/

inductive CounterEvent
  | inc
  | dec
deriving Repr, DecidableEq

/-- Prop drilling (`unnamed/part_000`): `useState(0)`. -/
def propDrillingInit : Int := 0

/-- Prop drilling `Buttons`: `onClick=\x7b() => setCount(count + 1)\x7d` for
`inc`, `setCount(count - 1)` for `desc`. -/
def propDrillingStep (count : Int) : CounterEvent → Int
  | CounterEvent.inc => count + 1
  | CounterEvent.dec => count - 1

/-- Prop drilling `Count` renders `\x7bcount\x7d`. -/
def propDrillingDisplay (count : Int) : Int := count

/-- Context API variant: `useState(0)` in `App`. -/
def contextInit : Int := 0

/-- Context API `Buttons`: `setCount(count + 1)` / `setCount(count - 1)`
through `useContext(CountContext)`. -/
def contextStep (count : Int) : CounterEvent → Int
  | CounterEvent.inc => count + 1
  | CounterEvent.dec => count - 1

/-- Context API `CountReader` renders `\x7bcount\x7d`. -/
def contextDisplay (count : Int) : Int := count

/-- Modelled from the spec: the Recoil `countAtom` lives in
`25_Recoil/vite-project/src/store/atom/count.jsx`, which is not among the
provided sources; the counter starts from count 0, so the atom default
is taken to be 0. -/
def countAtomDefault : Int := 0

/-- Recoil variant initial state is the atom default. -/
def recoilInit : Int := countAtomDefault

/-- Recoil `Buttons`: `setCount(count + 1)` / `setCount(count - 1)` via
`useRecoilState(countAtom)`. -/
def recoilStep (count : Int) : CounterEvent → Int
  | CounterEvent.inc => count + 1
  | CounterEvent.dec => count - 1

/-- Recoil `CountReader` renders `\x7bcount\x7d` via `useRecoilValue(countAtom)`. -/
def recoilDisplay (count : Int) : Int := count

/-- Run a counter variant over a sequence of button clicks. -/
def runCounter (step : Int → CounterEvent → Int) (init : Int)
    (events : List CounterEvent) : Int :=
  events.foldl step init

/-! ## The ErrorBoundary component

`src/28_ReactAdvancedPatterns/errorBoundary.jsx`.  The component state is
`\x7b hasError: false \x7d` initially; `getDerivedStateFromError` returns
`\x7b hasError: true \x7d`; `componentDidCatch` only logs and performs no
state update; `render` returns the fallback element when
`state.hasError` holds and `props.children` otherwise.
-/

structure EBState where
  hasError : Bool
deriving Repr, DecidableEq

/-- Constructor: `this.state = \x7b hasError: false \x7d`. -/
def ebInitialState : EBState := ⟨false⟩

/-- `static getDerivedStateFromError(error) \x7b return \x7b hasError: true \x7d; \x7d`. -/
def getDerivedStateFromError (_error : String) : EBState := ⟨true⟩

inductive EBOutput
  | fallback (text : String)
  | children
deriving Repr, DecidableEq

/-- `render()`: the fallback `<h2>Something went wrong.</h2>` when
`this.state.hasError`, else `this.props.children`. -/
def ebRender (s : EBState) : EBOutput :=
  if s.hasError then EBOutput.fallback "Something went wrong." else EBOutput.children

/-- Events the component can undergo: a child render error (routed through
`getDerivedStateFromError`) or any re-render without an error
(`componentDidCatch` only logs; no other code path calls `setState`). -/
inductive EBEvent
  | childError (error : String)
  | rerender
deriving Repr, DecidableEq

/-- One lifecycle step of the ErrorBoundary state. -/
def ebStep (s : EBState) : EBEvent → EBState
  | EBEvent.childError e => getDerivedStateFromError e
  | EBEvent.rerender => s

/-- The state after a sequence of lifecycle events. -/
def ebRun (s : EBState) (events : List EBEvent) : EBState :=
  events.foldl ebStep s

/-! ## The authentication snippets

In-memory token authentication appears in README.md §7 and
NODEJS-README.md §7 (store `const users = []`), JWT variants in
README.md §9 and NODEJS-README.md §8, and MongoDB-backed variants in
MONGODB-README.md §4/§5 and README.md §10/§11 and the README coding
problem 1.  Responses are modelled as a status code and a body; a JSON
body with a single field is modelled by the corresponding constructor.
-/

structure User where
  username : String
  password : String
  token : Option String := none
deriving Repr, DecidableEq

inductive Body
  | message (text : String)
  | token (t : String)
  | username (u : String)
deriving Repr, DecidableEq

structure Resp where
  status : Nat
  body : Body
deriving Repr, DecidableEq

/-- The find predicate of the in-memory signin handlers:
`u.username === username && u.password === password`. -/
def credsMatch (username password : String) (u : User) : Bool :=
  u.username == username && u.password == password

/-- `foundUser.token = token` mutates the first array element returned by
`users.find`, modelled as updating the first matching list entry. -/
def setTokenFirst (p : User → Bool) (t : String) : List User → List User
  | [] => []
  | u :: rest =>
    if p u then { u with token := some t } :: rest else u :: setTokenFirst p t rest

/-- README.md §7 `POST /signup`: pushes `\x7b username, password \x7d` and
answers `\x7b message: "You have signed up" \x7d`. -/
def signup_readme (st : List User) (username password : String) : List User × Resp :=
  (st ++ [{ username := username, password := password }],
   ⟨200, Body.message "You have signed up"⟩)

/-- README.md §7 `POST /signin`: on a find hit, generates a token (passed
here as `newToken`), stores it on the found user and answers
`\x7b token \x7d`; otherwise `403 \x7b message: "Invalid credentials" \x7d`. -/
def signin_readme (st : List User) (username password newToken : String) :
    List User × Resp :=
  if (st.find? (credsMatch username password)).isSome then
    (setTokenFirst (credsMatch username password) newToken st,
     ⟨200, Body.token newToken⟩)
  else
    (st, ⟨403, Body.message "Invalid credentials"⟩)

/-- README.md §7 `GET /me`: answers the username of the user holding the
header token, else (with no explicit status) `200 \x7b message: "Token Invalid" \x7d`. -/
def me_readme (st : List User) (t : String) : Resp :=
  match st.find? (fun u => u.token == some t) with
  | some u => ⟨200, Body.username u.username⟩
  | none => ⟨200, Body.message "Token Invalid"⟩

/-- NODEJS-README.md §7 `POST /signup`: answers `\x7b message: "User created" \x7d`. -/
def signup_nodejs (st : List User) (username password : String) : List User × Resp :=
  (st ++ [{ username := username, password := password }],
   ⟨200, Body.message "User created"⟩)

/-- NODEJS-README.md §7 `POST /signin`: same logic as the README variant. -/
def signin_nodejs (st : List User) (username password newToken : String) :
    List User × Resp :=
  if (st.find? (credsMatch username password)).isSome then
    (setTokenFirst (credsMatch username password) newToken st,
     ⟨200, Body.token newToken⟩)
  else
    (st, ⟨403, Body.message "Invalid credentials"⟩)

/-- NODEJS-README.md §7 `GET /me`: answers the username of the user
holding the header token, else `401 \x7b message: "Unauthorized" \x7d`. -/
def me_nodejs (st : List User) (t : String) : Resp :=
  match st.find? (fun u => u.token == some t) with
  | some u => ⟨200, Body.username u.username⟩
  | none => ⟨401, Body.message "Unauthorized"⟩

/-- `jwt.sign(\x7b username \x7d, secret)` modelled as a deterministic function
of payload and secret. -/
def jwtSign (secret username : String) : String :=
  "jwt." ++ secret ++ "." ++ username

/-- README.md §9 JWT `POST /signin`: stateless; answers a signed token on
a find hit, else `403 \x7b message: "Invalid credentials" \x7d`. -/
def signin_readme_jwt (st : List User) (username password : String) : Resp :=
  if (st.find? (credsMatch username password)).isSome then
    ⟨200, Body.token (jwtSign "your-secret-key" username)⟩
  else
    ⟨403, Body.message "Invalid credentials"⟩

/-- NODEJS-README.md §8 JWT `POST /signin`: same logic. -/
def signin_nodejs_jwt (st : List User) (username password : String) : Resp :=
  if (st.find? (credsMatch username password)).isSome then
    ⟨200, Body.token (jwtSign "your-secret-key" username)⟩
  else
    ⟨403, Body.message "Invalid credentials"⟩

/-! ### MongoDB-backed snippets -/

structure MongoUser where
  username : String
  password : String
deriving Repr, DecidableEq

/-- `bcrypt.hash(password, 10)` modelled as deterministic tagging. -/
def bcryptHash (password : String) : String := "$2b$10$" ++ password

/-- `bcrypt.compare(password, stored)`: succeeds exactly when `stored`
is the hash of `password`, per the documented bcrypt contract. -/
def bcryptCompare (password stored : String) : Bool :=
  bcryptHash password == stored

/-- `User.findOne(\x7b username \x7d)` returns the first stored document with
that username. -/
def findOneByUsername (docs : List MongoUser) (username : String) : Option MongoUser :=
  docs.find? (fun u => u.username == username)

/-- MONGODB-README.md §4 `POST /signin`: 403 "Invalid credentials" when no
user has the username or the hash of the found user does not compare;
otherwise `\x7b message: "Login successful" \x7d`. -/
def signin_mongodb4 (docs : List MongoUser) (username password : String) : Resp :=
  match findOneByUsername docs username with
  | none => ⟨403, Body.message "Invalid credentials"⟩
  | some u =>
    if bcryptCompare password u.password then ⟨200, Body.message "Login successful"⟩
    else ⟨403, Body.message "Invalid credentials"⟩

/-- MONGODB-README.md §5 `POST /signin`: as §4 but answers a JWT. -/
def signin_mongodb5 (docs : List MongoUser) (username password : String) : Resp :=
  match findOneByUsername docs username with
  | none => ⟨403, Body.message "Invalid credentials"⟩
  | some u =>
    if bcryptCompare password u.password then
      ⟨200, Body.token (jwtSign "your-secret-key" username)⟩
    else ⟨403, Body.message "Invalid credentials"⟩

/-- MONGODB-README.md §7 (schema section) `POST /signin`: messages
"User not found" / "Invalid password". -/
def signin_mongodbSchema (docs : List MongoUser) (username password : String) : Resp :=
  match findOneByUsername docs username with
  | none => ⟨403, Body.message "User not found"⟩
  | some u =>
    if bcryptCompare password u.password then
      ⟨200, Body.token (jwtSign "your-secret-key" username)⟩
    else ⟨403, Body.message "Invalid password"⟩

/-- README.md §10 `POST /signin`: messages "User not found" / "Invalid password". -/
def signin_readme10 (docs : List MongoUser) (username password : String) : Resp :=
  match findOneByUsername docs username with
  | none => ⟨403, Body.message "User not found"⟩
  | some u =>
    if bcryptCompare password u.password then
      ⟨200, Body.token (jwtSign "your-secret-key" username)⟩
    else ⟨403, Body.message "Invalid password"⟩

/-- README.md §11 `POST /signin`: messages "Invalid credentials", JWT
secret `secret-key`. -/
def signin_readme11 (docs : List MongoUser) (username password : String) : Resp :=
  match findOneByUsername docs username with
  | none => ⟨403, Body.message "Invalid credentials"⟩
  | some u =>
    if bcryptCompare password u.password then
      ⟨200, Body.token (jwtSign "secret-key" username)⟩
    else ⟨403, Body.message "Invalid credentials"⟩

/-- README.md coding problem 1 `POST /signin`: body `\x7b error: "Invalid" \x7d`
on both failure branches, JWT secret `secret`. -/
def signin_problem1 (docs : List MongoUser) (username password : String) : Resp :=
  match findOneByUsername docs username with
  | none => ⟨403, Body.message "Invalid"⟩
  | some u =>
    if bcryptCompare password u.password then
      ⟨200, Body.token (jwtSign "secret" username)⟩
    else ⟨403, Body.message "Invalid"⟩

/-- MONGODB-README.md §4 `POST /signup`: saves `\x7b username, password:
hashedPassword \x7d` and answers "User created successfully". -/
def signup_mongodb4 (docs : List MongoUser) (username password : String) :
    List MongoUser × Resp :=
  (docs ++ [⟨username, bcryptHash password⟩],
   ⟨200, Body.message "User created successfully"⟩)

/-- README.md §11 `POST /signup`: identical save, message
"User created successfully". -/
def signup_readme11 (docs : List MongoUser) (username password : String) :
    List MongoUser × Resp :=
  (docs ++ [⟨username, bcryptHash password⟩],
   ⟨200, Body.message "User created successfully"⟩)

/-! ### The MongoDB server shared between examples

`mongoose.connect` names a connection URL; the documents live in the
server, keyed here by URL (all snippets use the single model `User`).
Both README.md §11 and MONGODB-README.md §4 connect to
`mongodb://localhost:27017/authapp`.
-/

abbrev MongoServer := List (String × List MongoUser)

def mongoEmpty : MongoServer := []

def mongoGet (db : MongoServer) (url : String) : List MongoUser :=
  match db.find? (fun p => p.1 == url) with
  | some p => p.2
  | none => []

def mongoSet (db : MongoServer) (url : String) (docs : List MongoUser) : MongoServer :=
  match db with
  | [] => [(url, docs)]
  | p :: rest => if p.1 == url then (url, docs) :: rest else p :: mongoSet rest url docs

/-- The connection URL of MONGODB-README.md §4 and of README.md §11. -/
def authappUrl : String := "mongodb://localhost:27017/authapp"

/-- MONGODB-README.md §4 signup, acting on the shared server. -/
def signup_mongodb4_db (db : MongoServer) (username password : String) :
    MongoServer × Resp :=
  let out := signup_mongodb4 (mongoGet db authappUrl) username password
  (mongoSet db authappUrl out.1, out.2)

/-- MONGODB-README.md §4 signin, acting on the shared server. -/
def signin_mongodb4_db (db : MongoServer) (username password : String) : Resp :=
  signin_mongodb4 (mongoGet db authappUrl) username password

/-- README.md §11 signup, acting on the shared server. -/
def signup_readme11_db (db : MongoServer) (username password : String) :
    MongoServer × Resp :=
  let out := signup_readme11 (mongoGet db authappUrl) username password
  (mongoSet db authappUrl out.1, out.2)

/-- README.md §11 signin, acting on the shared server. -/
def signin_readme11_db (db : MongoServer) (username password : String) : Resp :=
  signin_readme11 (mongoGet db authappUrl) username password

/-! ### The random token generator

`generateToken` of README.md §7 / NODEJS-README.md §7 builds a
32-character token by indexing a 62-character alphabet with
`Math.floor(Math.random() * options.length)`.  `Math.random()` is
modelled as a stream of rationals; JavaScript string indexing yields
`undefined` out of bounds, modelled by `Option Char`.
-/

def options : List Char :=
  ("abcdefghijklmnopqrstuvwxyzABCDEFGHIJKLMNOPQRSTUVWXYZ0123456789").data

/-- JavaScript `s[i]`: the character at `i`, or `undefined` (`none`)
outside the bounds. -/
def jsCharAt (l : List Char) (i : Int) : Option Char :=
  if h : 0 ≤ i ∧ i.toNat < l.length then some (l.get ⟨i.toNat, h.2⟩) else none

/-- The 32 characters appended by the `for` loop of `generateToken`. -/
def generateToken (random : Nat → ℚ) : List (Option Char) :=
  (List.range 32).map (fun i => jsCharAt options (Int.floor (random i * options.length)))

/-- A token output is valid when it has 32 characters, none `undefined`,
all from the alphabet. -/
def validTokenOutput (out : List (Option Char)) : Bool :=
  out.length == 32 && out.all (fun oc => (oc.map (fun c => options.contains c)).getD false)

/-! ### Timers and fetch effects

The `useDebounce` hook (README.md §21, `hooks/useDebounce` of
`unnamed/part_002`) runs `const timer = setTimeout(...)` in its effect
and returns the cleanup `() => clearTimeout(timer)`.  The `useFetch`
hook (README.md §21, `hooks/useFetch` of `unnamed/part_001`) resolves
`fetch(url)` with a `.then` branch on success and a `.catch` branch on
failure.  Pending timers are modelled as a list of timer ids.
-/

def setTimeoutJs (pending : List Nat) (id : Nat) : List Nat := pending ++ [id]

def clearTimeoutJs (pending : List Nat) (id : Nat) : List Nat :=
  pending.filter (fun t => t ≠ id)

/-- The useDebounce effect: schedules its timer and hands back the
cleanup closure React will run before the next effect or on unmount. -/
def useDebounceEffect (pending : List Nat) (id : Nat) :
    List Nat × (List Nat → List Nat) :=
  (setTimeoutJs pending id, fun later => clearTimeoutJs later id)

structure FetchState where
  data : Option String
  loading : Bool
  error : Option String
deriving Repr, DecidableEq

/-- `useState(null), useState(true), useState(null)` of useFetch. -/
def useFetchInit : FetchState := ⟨none, true, none⟩

/-- Settling the fetch promise: the `.then` branch stores the data, the
`.catch` branch stores the error; both clear `loading`. -/
def useFetchOnResult (res : Except String String) (st : FetchState) : FetchState :=
  match res with
  | Except.ok d => { st with data := some d, loading := false }
  | Except.error e => { st with error := some e, loading := false }

/-! ### Request traces for the two in-memory token-auth snippets -/

inductive AuthReq
  | signup (username password : String)
  | signin (username password : String)
  | me (token : String)
deriving Repr, DecidableEq

/-- One request against the README.md §7 app; `newToken` is the value
`generateToken()` would produce at this point. -/
def stepReadme (st : List User) (newToken : String) : AuthReq → List User × Resp
  | AuthReq.signup u p => signup_readme st u p
  | AuthReq.signin u p => signin_readme st u p newToken
  | AuthReq.me t => (st, me_readme st t)

/-- One request against the NODEJS-README.md §7 app. -/
def stepNodejs (st : List User) (newToken : String) : AuthReq → List User × Resp
  | AuthReq.signup u p => signup_nodejs st u p
  | AuthReq.signin u p => signin_nodejs st u p newToken
  | AuthReq.me t => (st, me_nodejs st t)

/-- The response trace of the README.md §7 app over a request sequence,
drawing generated tokens from the stream `tokens`. -/
def runReadme (tokens : Nat → String) : List User → Nat → List AuthReq → List Resp
  | _, _, [] => []
  | st, i, r :: rest =>
    let out := stepReadme st (tokens i) r
    out.2 :: runReadme tokens out.1 (i + 1) rest

/-- The response trace of the NODEJS-README.md §7 app. -/
def runNodejs (tokens : Nat → String) : List User → Nat → List AuthReq → List Resp
  | _, _, [] => []
  | st, i, r :: rest =>
    let out := stepNodejs st (tokens i) r
    out.2 :: runNodejs tokens out.1 (i + 1) rest

/-- How the responses of the two snippets relate position by position:
identical, or one of the two fixed wording/status divergences (signup
message wording; unknown-token `/me`). -/
def respAgree (a b : Resp) : Prop :=
  a = b ∨
  (a = ⟨200, Body.message "You have signed up"⟩ ∧ b = ⟨200, Body.message "User created"⟩) ∨
  (a = ⟨200, Body.message "Token Invalid"⟩ ∧ b = ⟨401, Body.message "Unauthorized"⟩)

/-- The MongoDB signin handlers answer 403 exactly when this holds: no
stored user has the username, or the first one stored with it fails the
hash comparison. -/
def mongoNoMatch (docs : List MongoUser) (username password : String) : Prop :=
  match findOneByUsername docs username with
  | none => True
  | some u => bcryptCompare password u.password = false

/-- A store reachable by two MONGODB-README.md §4 signups of the same
username with different passwords. -/
def dupStore : List MongoUser :=
  (signup_mongodb4 (signup_mongodb4 [] "alice" "a").1 "alice" "b").1

/-! ## Line counting for the most elaborate examples

The three snippets the specification calls the most elaborate, with
their source lines transcribed verbatim (braces written `\x7b`/`\x7d` and
apostrophes `\x27` by escape).  A line carries meaningful logic when,
after discarding spaces, it is non-empty, is not a `//` comment, and
does not consist solely of closing/opening punctuation.
-/

/-- Punctuation-only characters: parentheses, comma, semicolon, braces. -/
def punctuationChars : List Char :=
  [Char.ofNat 40, Char.ofNat 41, Char.ofNat 44, Char.ofNat 59,
   Char.ofNat 123, Char.ofNat 125]

/-- The characters of a line with the spaces removed. -/
def nonSpace (l : List Char) : List Char :=
  l.filter (fun c => !(c == Char.ofNat 32))

/-- Whether a (space-stripped) line is a `//` comment line. -/
def isCommentStart : List Char → Bool
  | '/' :: '/' :: _ => true
  | _ => false

/-- A line of meaningful logic: non-blank, not a comment, not
punctuation-only. -/
def isMeaningfulLine (s : String) : Bool :=
  let content := nonSpace s.data
  !content.isEmpty && !(isCommentStart content) &&
    !(content.all (fun c => punctuationChars.contains c))

def meaningfulLineCount (ls : List String) : Nat :=
  (ls.filter isMeaningfulLine).length

/-- `src/28_ReactAdvancedPatterns/errorBoundary.jsx` lines 5 to 39: the
`ErrorBoundary` class. -/
def errorBoundaryClassLines : List String :=
  ["class ErrorBoundary extends React.Component \x7b",
   "    ",
   "    // Constructor initializes component\x27s state to track if there\x27s an error.",
   "    constructor(props) \x7b",
   "        super(props); // Call the parent class constructor",
   "        this.state = \x7b hasError: false \x7d; // Initialize state with hasError set to false",
   "    \x7d",
   "",
   "    // Lifecycle method triggered on error, updates state to render fallback UI.",
   "    static getDerivedStateFromError(error) \x7b",
   "        return \x7b hasError: true \x7d;",
   "    \x7d",
   "",
   "    // Lifecycle method for side effects when an error occurs, logs error details.",
   "    componentDidCatch(error, info) \x7b",
   "        console.error(\"Error caught:\", error, info);",
   "    \x7d",
   "",
   "    // Render method to display fallback UI if there\x27s an error, else render children.",
   "    render() \x7b",
   "        // If there\x27s an error, display a fallback UI with a red background.",
   "        if (this.state.hasError) \x7b",
   "            // Return JSX with a red background and error message.",
   "            return (",
   "                // Create a div element with JSX",
   "                <div>",
   "                    <h2>Something went wrong.</h2>",
   "                </div>",
   "            );",
   "        \x7d",
   "",
   "        // Otherwise, render the child components.",
   "        return this.props.children;",
   "    \x7d",
   "\x7d"]

/-- README.md lines 1396 to 1408: the `useDebounce` hook. -/
def useDebounceLines : List String :=
  ["function useDebounce(value, delay) \x7b",
   "    const [debouncedValue, setDebouncedValue] = useState(value);",
   "    ",
   "    useEffect(() => \x7b",
   "        const timer = setTimeout(() => \x7b",
   "            setDebouncedValue(value);",
   "        \x7d, delay);",
   "        ",
   "        return () => clearTimeout(timer);",
   "    \x7d, [value, delay]);",
   "    ",
   "    return debouncedValue;",
   "\x7d"]

/-- README.md lines 1488 to 1497: the `atomFamily` per-item state. -/
def atomFamilyLines : List String :=
  ["import \x7b atomFamily \x7d from \x27recoil\x27;",
   "",
   "export const todoState = atomFamily(\x7b",
   "    key: \x27todoState\x27,",
   "    default: (id) => (\x7b",
   "        id,",
   "        text: \x27\x27,",
   "        completed: false",
   "    \x7d)",
   "\x7d);"]

end HKWebD

namespace HKWebD

/-! ## Theorems -/

/-- C1: the claim that no import list of a source file contains a path
resolving to another file of this repository is false: the Context API
app imports `./Context.jsx`, a relative path into the repository (the
Recoil app and the two hook demos likewise import sibling files). -/
theorem C1_counterexample :
    ¬ (∀ f ∈ repoFiles, ∀ s ∈ f.importSpecifiers, isLocalImport s = false) := by
  decide

/-- C1 (amended): the markdown files and three of the JSX files are leaf
artifacts, but exactly four source files — the Context API app, the
Recoil app, and the two custom-hook demo apps — import another file of
the repository through a relative specifier. -/
theorem C1_amended :
    (repoFiles.filter (fun f => f.importSpecifiers.any isLocalImport)).map SourceFile.path
      = ["24_Context/vite-project/src/App.jsx", "25_Recoil/vite-project/src/App.jsx",
         "unnamed/part_001", "unnamed/part_002"] := by
  decide

/-- The NODEJS-README in-memory signin is the very same function as the
README one. -/
theorem signin_nodejs_eq_readme : signin_nodejs = signin_readme := rfl

/-- The NODEJS-README JWT signin is the very same function as the README
one. -/
theorem signin_nodejs_jwt_eq_readme : signin_nodejs_jwt = signin_readme_jwt := rfl

/-- The in-memory signin answers 403 exactly when no stored user matches
the pair, and otherwise answers the freshly generated token with 200. -/
theorem inMemory_signin_spec (st : List User) (u p t : String) :
    ((signin_readme st u p t).2.status = 403 ↔ ∀ x ∈ st, credsMatch u p x = false) ∧
    ((signin_readme st u p t).2.status ≠ 403 →
      (signin_readme st u p t).2 = ⟨200, Body.token t⟩) := by
  by_cases h : (st.find? (credsMatch u p)).isSome = true
  · rcases Option.isSome_iff_exists.mp h with ⟨x, hf⟩
    have hx : credsMatch u p x = true := List.find?_some hf
    have hmem : x ∈ st := List.mem_of_find?_eq_some hf
    refine ⟨?_, ?_⟩
    · simp only [signin_readme, if_pos h]
      constructor
      · intro habs
        exact absurd habs (by decide)
      · intro hall
        rw [hall x hmem] at hx
        cases hx
    · intro _
      simp only [signin_readme, if_pos h]
  · have hf : st.find? (credsMatch u p) = none := by
      cases hfind : st.find? (credsMatch u p) with
      | none => rfl
      | some _ => rw [hfind] at h; simp at h
    refine ⟨?_, ?_⟩
    · simp only [signin_readme, if_neg h]
      constructor
      · intro _ a ha
        have := List.find?_eq_none.mp hf a ha
        simpa using this
      · intro _
        trivial
    · intro hne
      exfalso
      apply hne
      unfold signin_readme
      rw [if_neg h]

/-- The JWT in-memory signin answers 403 exactly when no stored user
matches the pair, and otherwise answers a signed token with 200. -/
theorem inMemory_signin_jwt_spec (st : List User) (u p : String) :
    ((signin_readme_jwt st u p).status = 403 ↔ ∀ x ∈ st, credsMatch u p x = false) ∧
    ((signin_readme_jwt st u p).status ≠ 403 →
      signin_readme_jwt st u p = ⟨200, Body.token (jwtSign "your-secret-key" u)⟩) := by
  by_cases h : (st.find? (credsMatch u p)).isSome = true
  · rcases Option.isSome_iff_exists.mp h with ⟨x, hf⟩
    have hx : credsMatch u p x = true := List.find?_some hf
    have hmem : x ∈ st := List.mem_of_find?_eq_some hf
    refine ⟨?_, ?_⟩
    · simp only [signin_readme_jwt, if_pos h]
      constructor
      · intro habs
        exact absurd habs (by decide)
      · intro hall
        rw [hall x hmem] at hx
        cases hx
    · intro _
      simp only [signin_readme_jwt, if_pos h]
  · have hf : st.find? (credsMatch u p) = none := by
      cases hfind : st.find? (credsMatch u p) with
      | none => rfl
      | some _ => rw [hfind] at h; simp at h
    refine ⟨?_, ?_⟩
    · simp only [signin_readme_jwt, if_neg h]
      constructor
      · intro _ a ha
        have := List.find?_eq_none.mp hf a ha
        simpa using this
      · intro _
        trivial
    · intro hne
      exfalso
      apply hne
      unfold signin_readme_jwt
      rw [if_neg h]

/-- Common shape of all six MongoDB signin handlers: 403 exactly on
`mongoNoMatch`, success answer otherwise. -/
theorem mongo_signin_spec (f : List MongoUser → String → String → Resp)
    (failA failB : Body) (success : String → Resp)
    (hf : ∀ docs u p, f docs u p =
      match findOneByUsername docs u with
      | none => ⟨403, failA⟩
      | some x =>
        if bcryptCompare p x.password then success u else ⟨403, failB⟩)
    (hs : ∀ u, (success u).status = 200) (docs : List MongoUser) (u p : String) :
    ((f docs u p).status = 403 ↔ mongoNoMatch docs u p) ∧
    ((f docs u p).status ≠ 403 → f docs u p = success u) := by
  rw [hf docs u p]
  cases hfo : findOneByUsername docs u with
  | none =>
    simp [mongoNoMatch, hfo]
  | some x =>
    simp only [hfo]
    by_cases hc : bcryptCompare p x.password = true
    · rw [if_pos hc]
      refine ⟨?_, fun _ => rfl⟩
      constructor
      · intro habs
        rw [hs u] at habs
        exact absurd habs (by decide)
      · intro hnm
        simp only [mongoNoMatch, hfo] at hnm
        rw [hc] at hnm
        cases hnm
    · rw [if_neg hc]
      refine ⟨?_, fun hne => absurd rfl hne⟩
      simp only [mongoNoMatch, hfo]
      constructor
      · intro _
        simpa using hc
      · intro _
        trivial

/-- With pairwise distinct usernames, the MongoDB first-match condition
coincides with the claim wording "matches no stored user". -/
theorem mongoNoMatch_iff_nodup (docs : List MongoUser) (u p : String)
    (h : (docs.map MongoUser.username).Nodup) :
    mongoNoMatch docs u p ↔
      ∀ x ∈ docs, (x.username == u && bcryptCompare p x.password) = false := by
  cases hfo : docs.find? (fun d => d.username == u) with
  | none =>
    have hall := List.find?_eq_none.mp hfo
    simp only [mongoNoMatch, findOneByUsername, hfo]
    constructor
    · intro _ x hx
      have hxu : ¬ (x.username == u) = true := hall x hx
      simp [Bool.not_eq_true] at hxu
      simp [hxu]
    · intro _
      trivial
  | some x0 =>
    have hx0mem : x0 ∈ docs := List.mem_of_find?_eq_some (p := fun d : MongoUser => d.username == u) hfo
    have hx0u : (x0.username == u) = true := List.find?_some (p := fun d : MongoUser => d.username == u) hfo
    simp only [mongoNoMatch, findOneByUsername, hfo]
    constructor
    · intro hcmp x hx
      by_cases hxu : (x.username == u) = true
      · have hEq : x = x0 := by
          refine List.inj_on_of_nodup_map h hx hx0mem ?_
          have h1 : x.username = u := by simpa using hxu
          have h2 : x0.username = u := by simpa using hx0u
          rw [h1, h2]
        rw [hEq, hx0u, hcmp]
        rfl
      · simp only [Bool.not_eq_true] at hxu
        rw [hxu]
        rfl
    · intro hall
      have hx0 := hall x0 hx0mem
      rw [hx0u] at hx0
      simpa using hx0

/-- C2: the claim fails on the MongoDB snippets.  On the store reached
by two MONGODB-README.md §4 signups of username `alice` with passwords
`a` then `b`, signing in as `(alice, b)` yields 403 even though the pair
matches the second stored user: `findOne` checks only the first user
with that username. -/
theorem C2_counterexample :
    ¬ (((signin_mongodb4 dupStore "alice" "b").status = 403) ↔
        ∀ x ∈ dupStore, (x.username == "alice" && bcryptCompare "b" x.password) = false) := by
  decide

/-- C2 (amended): every signin handler answers 403 exactly when its
lookup fails — for the in-memory snippets, when no stored user matches
the pair; for the MongoDB snippets, when no user has the username or
the first stored user with it fails the hash comparison (which
coincides with "no stored user matches" when usernames are pairwise
distinct) — and otherwise answers 200 with a token or success
message. -/
theorem C2_amended :
    (∀ (st : List User) (u p t : String),
       ((signin_readme st u p t).2.status = 403 ↔ ∀ x ∈ st, credsMatch u p x = false) ∧
       ((signin_readme st u p t).2.status ≠ 403 →
         (signin_readme st u p t).2 = ⟨200, Body.token t⟩)) ∧
    (∀ (st : List User) (u p t : String),
       ((signin_nodejs st u p t).2.status = 403 ↔ ∀ x ∈ st, credsMatch u p x = false) ∧
       ((signin_nodejs st u p t).2.status ≠ 403 →
         (signin_nodejs st u p t).2 = ⟨200, Body.token t⟩)) ∧
    (∀ (st : List User) (u p : String),
       ((signin_readme_jwt st u p).status = 403 ↔ ∀ x ∈ st, credsMatch u p x = false) ∧
       ((signin_readme_jwt st u p).status ≠ 403 →
         signin_readme_jwt st u p = ⟨200, Body.token (jwtSign "your-secret-key" u)⟩)) ∧
    (∀ (st : List User) (u p : String),
       ((signin_nodejs_jwt st u p).status = 403 ↔ ∀ x ∈ st, credsMatch u p x = false) ∧
       ((signin_nodejs_jwt st u p).status ≠ 403 →
         signin_nodejs_jwt st u p = ⟨200, Body.token (jwtSign "your-secret-key" u)⟩)) ∧
    (∀ (docs : List MongoUser) (u p : String),
       ((signin_mongodb4 docs u p).status = 403 ↔ mongoNoMatch docs u p) ∧
       ((signin_mongodb4 docs u p).status ≠ 403 →
         signin_mongodb4 docs u p = ⟨200, Body.message "Login successful"⟩)) ∧
    (∀ (docs : List MongoUser) (u p : String),
       ((signin_mongodb5 docs u p).status = 403 ↔ mongoNoMatch docs u p) ∧
       ((signin_mongodb5 docs u p).status ≠ 403 →
         signin_mongodb5 docs u p = ⟨200, Body.token (jwtSign "your-secret-key" u)⟩)) ∧
    (∀ (docs : List MongoUser) (u p : String),
       ((signin_mongodbSchema docs u p).status = 403 ↔ mongoNoMatch docs u p) ∧
       ((signin_mongodbSchema docs u p).status ≠ 403 →
         signin_mongodbSchema docs u p = ⟨200, Body.token (jwtSign "your-secret-key" u)⟩)) ∧
    (∀ (docs : List MongoUser) (u p : String),
       ((signin_readme10 docs u p).status = 403 ↔ mongoNoMatch docs u p) ∧
       ((signin_readme10 docs u p).status ≠ 403 →
         signin_readme10 docs u p = ⟨200, Body.token (jwtSign "your-secret-key" u)⟩)) ∧
    (∀ (docs : List MongoUser) (u p : String),
       ((signin_readme11 docs u p).status = 403 ↔ mongoNoMatch docs u p) ∧
       ((signin_readme11 docs u p).status ≠ 403 →
         signin_readme11 docs u p = ⟨200, Body.token (jwtSign "secret-key" u)⟩)) ∧
    (∀ (docs : List MongoUser) (u p : String),
       ((signin_problem1 docs u p).status = 403 ↔ mongoNoMatch docs u p) ∧
       ((signin_problem1 docs u p).status ≠ 403 →
         signin_problem1 docs u p = ⟨200, Body.token (jwtSign "secret" u)⟩)) ∧
    (∀ (docs : List MongoUser) (u p : String),
       (docs.map MongoUser.username).Nodup →
       (mongoNoMatch docs u p ↔
         ∀ x ∈ docs, (x.username == u && bcryptCompare p x.password) = false)) := by
  refine ⟨inMemory_signin_spec, ?_, inMemory_signin_jwt_spec, ?_, ?_, ?_, ?_, ?_, ?_, ?_, ?_⟩
  · rw [signin_nodejs_eq_readme]
    exact inMemory_signin_spec
  · rw [signin_nodejs_jwt_eq_readme]
    exact inMemory_signin_jwt_spec
  · exact mongo_signin_spec signin_mongodb4
      (Body.message "Invalid credentials") (Body.message "Invalid credentials")
      (fun _ => ⟨200, Body.message "Login successful"⟩)
      (fun _ _ _ => rfl) (fun _ => rfl)
  · exact mongo_signin_spec signin_mongodb5
      (Body.message "Invalid credentials") (Body.message "Invalid credentials")
      (fun u => ⟨200, Body.token (jwtSign "your-secret-key" u)⟩)
      (fun _ _ _ => rfl) (fun _ => rfl)
  · exact mongo_signin_spec signin_mongodbSchema
      (Body.message "User not found") (Body.message "Invalid password")
      (fun u => ⟨200, Body.token (jwtSign "your-secret-key" u)⟩)
      (fun _ _ _ => rfl) (fun _ => rfl)
  · exact mongo_signin_spec signin_readme10
      (Body.message "User not found") (Body.message "Invalid password")
      (fun u => ⟨200, Body.token (jwtSign "your-secret-key" u)⟩)
      (fun _ _ _ => rfl) (fun _ => rfl)
  · exact mongo_signin_spec signin_readme11
      (Body.message "Invalid credentials") (Body.message "Invalid credentials")
      (fun u => ⟨200, Body.token (jwtSign "secret-key" u)⟩)
      (fun _ _ _ => rfl) (fun _ => rfl)
  · exact mongo_signin_spec signin_problem1
      (Body.message "Invalid") (Body.message "Invalid")
      (fun u => ⟨200, Body.token (jwtSign "secret" u)⟩)
      (fun _ _ _ => rfl) (fun _ => rfl)
  · exact fun docs u p h => mongoNoMatch_iff_nodup docs u p h

/-- C2 witness: a successful in-memory signin, and the
no-match/first-match coincidence instantiated on a one-user store. -/
theorem C2_witness :
    (signin_readme [{ username := "alice", password := "pw" }] "alice" "pw" "tok").2
        = ⟨200, Body.token "tok"⟩ ∧
    (mongoNoMatch [⟨"alice", bcryptHash "pw"⟩] "alice" "bad" ↔
      ∀ x ∈ [MongoUser.mk "alice" (bcryptHash "pw")],
        (x.username == "alice" && bcryptCompare "bad" x.password) = false) :=
  ⟨(C2_amended.1 [{ username := "alice", password := "pw" }] "alice" "pw" "tok").2
      (by decide),
   C2_amended.2.2.2.2.2.2.2.2.2.2 [⟨"alice", bcryptHash "pw"⟩] "alice" "bad" (by decide)⟩

/-- C6: the three counter variants (prop drilling, Context API, Recoil)
are behaviorally equivalent: all start from count 0, the increment
button replaces `c` by `c + 1` and the decrement button by `c - 1` in
every variant, the reader displays exactly the current count, and hence
every sequence of button clicks yields the same displayed value in all
variants. -/
theorem C6_theorem :
    propDrillingInit = 0 ∧ contextInit = 0 ∧ recoilInit = 0 ∧
    (∀ c : Int, propDrillingStep c CounterEvent.inc = c + 1 ∧
       propDrillingStep c CounterEvent.dec = c - 1 ∧
       contextStep c CounterEvent.inc = c + 1 ∧
       contextStep c CounterEvent.dec = c - 1 ∧
       recoilStep c CounterEvent.inc = c + 1 ∧
       recoilStep c CounterEvent.dec = c - 1) ∧
    (∀ c : Int, propDrillingDisplay c = c ∧ contextDisplay c = c ∧ recoilDisplay c = c) ∧
    (∀ events : List CounterEvent,
       propDrillingDisplay (runCounter propDrillingStep propDrillingInit events)
         = contextDisplay (runCounter contextStep contextInit events) ∧
       contextDisplay (runCounter contextStep contextInit events)
         = recoilDisplay (runCounter recoilStep recoilInit events)) := by
  refine ⟨rfl, rfl, rfl, ?_, ?_, ?_⟩
  · intro c
    exact ⟨rfl, rfl, rfl, rfl, rfl, rfl⟩
  · intro c
    exact ⟨rfl, rfl, rfl⟩
  · intro events
    exact ⟨rfl, rfl⟩

/-- C10: `render` returns the fallback element exactly when
`state.hasError` is true and `props.children` otherwise;
`getDerivedStateFromError` returns `hasError := true` for every error;
no lifecycle event resets `hasError`, so once true it stays true and the
boundary renders the fallback on every subsequent render. -/
theorem C10_theorem :
    (∀ s : EBState,
       ebRender s = EBOutput.fallback "Something went wrong." ↔ s.hasError = true) ∧
    (∀ s : EBState, s.hasError = false → ebRender s = EBOutput.children) ∧
    (∀ e : String, (getDerivedStateFromError e).hasError = true) ∧
    (∀ (s : EBState) (events : List EBEvent), s.hasError = true →
       (ebRun s events).hasError = true ∧
       ebRender (ebRun s events) = EBOutput.fallback "Something went wrong.") := by
  refine ⟨?_, ?_, fun _ => rfl, ?_⟩
  · intro s
    cases s with
    | mk b =>
      cases b <;> simp [ebRender]
  · intro s hs
    cases s with
    | mk b =>
      cases b <;> simp_all [ebRender]
  · intro s events hs
    have key : ∀ (l : List EBEvent) (t : EBState), t.hasError = true →
        (ebRun t l).hasError = true := by
      intro l
      induction l with
      | nil => intro t ht; exact ht
      | cons e rest ih =>
        intro t ht
        cases e with
        | childError msg => exact ih _ rfl
        | rerender => exact ih _ ht
    have h1 := key events s hs
    refine ⟨h1, ?_⟩
    simp [ebRender, h1]

/-- C10 witness: after catching one child error and any further
re-render, the boundary still reports the fallback. -/
theorem C10_witness :
    (ebRun ⟨true⟩ [EBEvent.rerender]).hasError = true ∧
    ebRender (ebRun ⟨true⟩ [EBEvent.rerender]) = EBOutput.fallback "Something went wrong." :=
  C10_theorem.2.2.2 ⟨true⟩ [EBEvent.rerender] rfl

/-- C5: the claim that no state written by the handler of one example is
observed by the handler of another example is false for the MongoDB
examples.  README.md §11 and MONGODB-README.md §4 connect to the same
`mongodb://localhost:27017/authapp` database and `User` model, so
running the §4 signin after a §11 signup of the same credentials does
not behave as on the untouched store: the cross-example write is
observed. -/
theorem C5_counterexample :
    ¬ (∀ u p : String,
        signin_mongodb4_db (signup_readme11_db mongoEmpty u p).1 u p
          = signin_mongodb4_db mongoEmpty u p) := by
  intro h
  exact absurd (h "alice" "pw") (by decide)

/-- C5 (amended): in-memory stores are local to their example, but the
two MongoDB examples share the persistent `authapp` database: a user
signed up by the handler of either example signs in successfully through
the handler of the other example, while on the empty store both signins answer
403. -/
theorem C5_amended :
    ∀ u p : String,
      (signin_mongodb4_db (signup_readme11_db mongoEmpty u p).1 u p).status = 200 ∧
      (signin_readme11_db (signup_mongodb4_db mongoEmpty u p).1 u p).status = 200 ∧
      signin_mongodb4_db mongoEmpty u p = ⟨403, Body.message "Invalid credentials"⟩ ∧
      signin_readme11_db mongoEmpty u p = ⟨403, Body.message "Invalid credentials"⟩ := by
  intro u p
  refine ⟨?_, ?_, rfl, rfl⟩
  · simp [signin_mongodb4_db, signup_readme11_db, signup_readme11, signin_mongodb4,
      mongoGet, mongoSet, mongoEmpty, findOneByUsername, bcryptCompare]
  · simp [signin_readme11_db, signup_mongodb4_db, signup_mongodb4, signin_readme11,
      mongoGet, mongoSet, mongoEmpty, findOneByUsername, bcryptCompare]

/-- C8: the claim that the README.md and NODEJS-README.md token-auth
snippets return the same status codes and bodies is false: `GET /me`
with an unknown token answers 200 with "Token Invalid" in README.md but
401 with "Unauthorized" in NODEJS-README.md. -/
theorem C8_counterexample :
    ¬ ((runReadme (fun _ => "tok") [] 0 [AuthReq.me "x"]).map Resp.status
        = (runNodejs (fun _ => "tok") [] 0 [AuthReq.me "x"]).map Resp.status) := by
  decide

/-- C8 (amended): over every request sequence and token stream the two
snippets evolve through identical stores, and position by position the
responses are identical except for two fixed divergences: the signup
message wording ("You have signed up" vs "User created"), and `GET /me`
with an unknown token (200 "Token Invalid" vs 401 "Unauthorized").  In
particular `/signin` responses, and `/me` responses for a known token,
coincide exactly. -/
theorem C8_amended :
    ∀ (tokens : Nat → String) (st : List User) (i : Nat) (reqs : List AuthReq),
      List.Forall₂ respAgree (runReadme tokens st i reqs) (runNodejs tokens st i reqs) := by
  intro tokens st i reqs
  induction reqs generalizing st i with
  | nil => exact List.Forall₂.nil
  | cons r rest ih =>
    cases r with
    | signup u p =>
      exact List.Forall₂.cons (Or.inr (Or.inl ⟨rfl, rfl⟩)) (ih _ _)
    | signin u p =>
      exact List.Forall₂.cons (Or.inl rfl) (ih _ _)
    | me t =>
      cases hfind : st.find? (fun x => x.token == some t) with
      | some x =>
        refine List.Forall₂.cons (Or.inl ?_) (ih _ _)
        show me_readme st t = me_nodejs st t
        simp [me_readme, me_nodejs, hfind]
      | none =>
        refine List.Forall₂.cons ?_ (ih _ _)
        refine Or.inr (Or.inr ⟨?_, ?_⟩)
        · show me_readme st t = _
          simp [me_readme, hfind]
        · show me_nodejs st t = _
          simp [me_nodejs, hfind]

/-- For a random draw in `[0, 1)`, the JavaScript index expression
`Math.floor(Math.random() * options.length)` lands inside the alphabet. -/
theorem jsCharAt_floor_mem (r : ℚ) (h0 : 0 ≤ r) (h1 : r < 1) :
    ∃ c, jsCharAt options (Int.floor (r * options.length)) = some c ∧ c ∈ options := by
  have hlen : options.length = 62 := by decide
  have hcast : ((options.length : ℚ)) = 62 := by
    rw [hlen]
    norm_num
  have hmulnn : 0 ≤ r * (options.length : ℚ) := mul_nonneg h0 (by positivity)
  have hnn : 0 ≤ Int.floor (r * (options.length : ℚ)) := Int.floor_nonneg.mpr hmulnn
  have hub : Int.floor (r * (options.length : ℚ)) < 62 := by
    have hmul : r * (options.length : ℚ) < 62 := by
      rw [hcast]
      nlinarith
    exact Int.floor_lt.mpr (by exact_mod_cast hmul)
  have hlt : (Int.floor (r * (options.length : ℚ))).toNat < options.length := by
    omega
  refine ⟨options.get ⟨(Int.floor (r * (options.length : ℚ))).toNat, hlt⟩, ?_, ?_⟩
  · unfold jsCharAt
    rw [dif_pos ⟨hnn, hlt⟩]
  · exact List.get_mem _ _ _

/-- The generator postcondition, uniform in the random stream. -/
theorem generateToken_spec (random : Nat → ℚ) (h : ∀ i, 0 ≤ random i ∧ random i < 1) :
    (generateToken random).length = 32 ∧
    ∀ oc ∈ generateToken random, ∃ c, oc = some c ∧ c ∈ options := by
  constructor
  · simp [generateToken]
  · intro oc hoc
    simp only [generateToken, List.mem_map] at hoc
    obtain ⟨i, _, rfl⟩ := hoc
    obtain ⟨c, hc, hmem⟩ := jsCharAt_floor_mem (random i) (h i).1 (h i).2
    exact ⟨c, hc, hmem⟩

/-- The postcondition phrased through the executable validity check. -/
theorem generateToken_valid (random : Nat → ℚ) (h : ∀ i, 0 ≤ random i ∧ random i < 1) :
    validTokenOutput (generateToken random) = true := by
  obtain ⟨hlen, hmem⟩ := generateToken_spec random h
  unfold validTokenOutput
  rw [Bool.and_eq_true]
  constructor
  · simp [hlen]
  · rw [List.all_eq_true]
    intro oc hoc
    obtain ⟨c, hoc2, hcm⟩ := hmem oc hoc
    rw [hoc2]
    simpa using hcm

/-- C9: for every call, `generateToken` appends exactly 32 characters,
the index `Math.floor(Math.random() * options.length)` is always within
the bounds of the 62-character alphabet (no position is `undefined`),
and every appended character belongs to the alphabet — assuming
`Math.random()` returns values in `[0, 1)`. -/
theorem C9_theorem (random : Nat → ℚ) (h : ∀ i, 0 ≤ random i ∧ random i < 1) :
    options.length = 62 ∧
    (generateToken random).length = 32 ∧
    ∀ oc ∈ generateToken random, ∃ c, oc = some c ∧ c ∈ options :=
  ⟨by decide, (generateToken_spec random h).1, (generateToken_spec random h).2⟩

/-- C9 witness: the postcondition at the constant stream 1/2. -/
theorem C9_witness :
    options.length = 62 ∧
    (generateToken (fun _ => 1 / 2)).length = 32 ∧
    ∀ oc ∈ generateToken (fun _ => 1 / 2), ∃ c, oc = some c ∧ c ∈ options :=
  C9_theorem (fun _ => 1 / 2) (fun _ => ⟨by norm_num, by norm_num⟩)

/-- C3: the claim that no function of the corpus owns a provable
postcondition not delegated to React, Express, Mongoose, jsonwebtoken
or bcrypt is refuted by `generateToken`: it is original loop logic
calling none of those libraries, and its output provably is a
32-character alphanumeric token — here evaluated concretely at the
constant random stream 0. -/
theorem C3_counterexample :
    validTokenOutput (generateToken (fun _ => 0)) = true :=
  generateToken_valid (fun _ => 0) (fun _ => ⟨le_refl 0, by norm_num⟩)

/-- C3 (amended): every snippet except `generateToken` is a thin wrapper
over a library call; `generateToken` implements original algorithmic
logic whose repository-owned postcondition — 32 characters, all from
the 62-character alphabet, for every random stream in `[0, 1)` — is
provable without any library semantics. -/
theorem C3_amended (random : Nat → ℚ) (h : ∀ i, 0 ≤ random i ∧ random i < 1) :
    validTokenOutput (generateToken random) = true :=
  generateToken_valid random h

/-- C3 witness: the amended postcondition at the constant stream 1/2. -/
theorem C3_witness :
    validTokenOutput (generateToken (fun _ => 1 / 2)) = true :=
  C3_amended (fun _ => 1 / 2) (fun _ => ⟨by norm_num, by norm_num⟩)

/-- C4: the claim that no snippet ever cancels a pending timer is false:
the `useDebounce` effect cleanup removes
the timer it scheduled, so running the cleanup does not leave the
pending-timer state unchanged. -/
theorem C4_counterexample :
    ¬ (∀ (pending : List Nat) (id : Nat),
        (useDebounceEffect pending id).2 (useDebounceEffect pending id).1
          = (useDebounceEffect pending id).1) := by
  intro h
  exact absurd (h [] 0) (by decide)

/-- C4 (amended): asynchronous operations are single uncoordinated
fetches, but the corpus does cancel a pending timer and does take a
failure-recovery branch: the `useDebounce` cleanup cancels exactly the
timer its effect scheduled, and the `.catch` branch of the `useFetch` hook
records the error and clears `loading` (the `.then` branch records the
data). -/
theorem C4_amended :
    (∀ (pending : List Nat) (id : Nat), id ∉ pending →
        (useDebounceEffect pending id).2 (useDebounceEffect pending id).1 = pending) ∧
    (∀ (st : FetchState) (e : String),
        (useFetchOnResult (Except.error e) st).error = some e ∧
        (useFetchOnResult (Except.error e) st).loading = false) ∧
    (∀ (st : FetchState) (d : String),
        (useFetchOnResult (Except.ok d) st).data = some d ∧
        (useFetchOnResult (Except.ok d) st).loading = false) := by
  refine ⟨?_, fun st e => ⟨rfl, rfl⟩, fun st d => ⟨rfl, rfl⟩⟩
  intro pending id hid
  show clearTimeoutJs (setTimeoutJs pending id) id = pending
  unfold clearTimeoutJs setTimeoutJs
  rw [List.filter_append]
  have h2 : List.filter (fun t => decide (t ≠ id)) [id] = [] := by simp
  rw [h2, List.append_nil, List.filter_eq_self]
  intro a ha
  simp only [ne_eq, decide_not, Bool.not_eq_eq_eq_not, Bool.not_true, decide_eq_false_iff_not]
  exact fun hEq => hid (hEq ▸ ha)

/-- C4 witness: the cleanup empties the pending set it filled, and the
catch branch stores the error. -/
theorem C4_witness :
    (useDebounceEffect [] 5).2 (useDebounceEffect [] 5).1 = [] ∧
    (useFetchOnResult (Except.error "network down") useFetchInit).error
        = some "network down" ∧
    (useFetchOnResult (Except.error "network down") useFetchInit).loading = false :=
  ⟨C4_amended.1 [] 5 (by decide),
   (C4_amended.2.1 useFetchInit "network down").1,
   (C4_amended.2.1 useFetchInit "network down").2⟩

/-- C7: the three most elaborate examples are each under twenty lines of
meaningful logic: the `ErrorBoundary` class has 15 such lines, the
`useDebounce` hook 9, and the `atomFamily` per-item state 7 (counting a
line as meaningful when it is non-blank, not a `//` comment and not
punctuation-only). -/
theorem C7_theorem :
    meaningfulLineCount errorBoundaryClassLines < 20 ∧
    meaningfulLineCount useDebounceLines < 20 ∧
    meaningfulLineCount atomFamilyLines < 20 ∧
    meaningfulLineCount errorBoundaryClassLines = 15 ∧
    meaningfulLineCount useDebounceLines = 9 ∧
    meaningfulLineCount atomFamilyLines = 7 := by
  decide

end HKWebD
